import Mathlib

/-!
Verification of the GpxToKml batch converter (src/gpx-to-kml.cpp) against its
natural-language specification.  The development shallowly embeds the
program: the XML data the parser walks over, the per-file parse functions
(`ParseTime`, `ParseName`, `ParseCoordinates`), the filename sanitizer
(`NormalizeFilename`), the KML serializer and file writer (`WriteFile`),
the command-line front end (`main`/`Main`), and the producer/worker
scheduler of `Main` as a labelled transition system.
-/

namespace GpxToKml

/-! ## Decimal numbers

`boost::lexical_cast<double>` parses decimal literals.  We model the parsed
value exactly as a scaled decimal `num / 10 ^ shift` instead of a binary
float; all claims evaluate on values whose 7-digit fixed-point rendering
agrees with the double rendering. -/

structure Dec where
  num : Int
  shift : Nat
deriving DecidableEq, Repr

def Dec.toRat (d : Dec) : ℚ := (d.num : ℚ) / (10 : ℚ) ^ d.shift

def digitsToNat (ds : List Char) : Nat :=
  ds.foldl (fun a c => a * 10 + (c.toNat - 48)) 0

/-- Unsigned part of a decimal literal: digits with an optional fraction.
Returns the value and the unconsumed remainder. -/
def parseUnsigned (cs : List Char) : Option (Dec × List Char) :=
  let ip := cs.takeWhile Char.isDigit
  let rest := cs.drop ip.length
  match rest with
  | '.' :: r =>
    let fp := r.takeWhile Char.isDigit
    let rest2 := r.drop fp.length
    if ip.isEmpty && fp.isEmpty then none
    else some (⟨(digitsToNat (ip ++ fp) : Int), fp.length⟩, rest2)
  | _ => if ip.isEmpty then none else some (⟨(digitsToNat ip : Int), 0⟩, rest)

/-- Optional exponent suffix `e`/`E` with optional sign. -/
def applyExponent (d : Dec) (cs : List Char) : Option Dec :=
  match cs with
  | [] => some d
  | e :: r =>
    if e = 'e' || e = 'E' then
      let signed : Bool × List Char :=
        match r with
        | '-' :: t => (true, t)
        | '+' :: t => (false, t)
        | _ => (false, r)
      let ds := signed.2.takeWhile Char.isDigit
      if ds.isEmpty || ds.length != signed.2.length then none
      else if signed.1 then some ⟨d.num, d.shift + digitsToNat ds⟩
      else some ⟨d.num * (10 : Int) ^ digitsToNat ds, d.shift⟩
    else none

/-- Model of `boost::lexical_cast<double>` on a decimal string: optional
sign, digits with optional fraction, optional exponent, the whole string
consumed.  Failure models the thrown `boost::bad_lexical_cast`. -/
def parseDecimal (s : String) : Option Dec :=
  let signed : Bool × List Char :=
    match s.data with
    | '-' :: r => (true, r)
    | '+' :: r => (false, r)
    | _ => (false, s.data)
  match parseUnsigned signed.2 with
  | none => none
  | some (d, rest) =>
    match applyExponent d rest with
    | none => none
    | some d2 => some (if signed.1 then ⟨-d2.num, d2.shift⟩ else d2)

/-! ## Decimal rendering: `std::fixed` with `precision(7)` -/

/-- Digits of `n` in base 10, most significant first; fuel-based recursion
with `n` itself as sufficient fuel. -/
def natToDecimalAux : Nat → Nat → List Char
  | 0, _ => []
  | _ + 1, 0 => []
  | fuel + 1, n => natToDecimalAux fuel (n / 10) ++ [Nat.digitChar (n % 10)]

def natToDecimal (n : Nat) : String :=
  if n = 0 then "0" else ⟨natToDecimalAux n n⟩

/-- The seven fractional digits of `m < 10 ^ 7`, most significant first. -/
def fracDigits7 (m : Nat) : List Char :=
  (List.range 7).map (fun i => Nat.digitChar (m / 10 ^ (6 - i) % 10))

/-- `|d| * 10 ^ 7` rounded to the nearest integer (ties up), written with
the denominator `10 ^ shift` explicit so that it evaluates by
machine-integer arithmetic. -/
def fixed7Scaled (d : Dec) : Nat :=
  (d.num.natAbs * 10 ^ 7 * 2 + 10 ^ d.shift) / (2 * 10 ^ d.shift)

/-- Model of streaming a value with `std::fixed` and `precision(7)`:
sign, integer part, `'.'`, exactly seven fractional digits. -/
def fixed7 (d : Dec) : String :=
  let n := fixed7Scaled d
  (if d.num < 0 then "-" else "") ++
    natToDecimal (n / 10 ^ 7) ++ "." ++ ⟨fracDigits7 (n % 10 ^ 7)⟩

/-! ## XML document model (the tinyxml2 subset the program uses) -/

inductive XmlNode where
  | element (tag : String) (attrs : List (String × String)) (children : List XmlNode)
  | text (s : String)

namespace XmlNode

def isElementWithTag (tag : String) : XmlNode → Bool
  | .element t _ _ => t = tag
  | .text _ => false

def children : XmlNode → List XmlNode
  | .element _ _ cs => cs
  | .text _ => []

/-- `XMLElement::FirstChildElement(tag)`: the first child element with the
given tag, skipping text nodes. -/
def firstChildElement (n : XmlNode) (tag : String) : Option XmlNode :=
  n.children.find? (isElementWithTag tag)

/-- All child elements with the given tag, in document order: the list the
`FirstChildElement`/`NextSiblingElement` loop walks. -/
def childElementsWithTag (n : XmlNode) (tag : String) : List XmlNode :=
  n.children.filter (isElementWithTag tag)

/-- `XMLElement::GetText()`: the value of the first child when it is a text
node, and null (`none`) otherwise — in particular for an empty element. -/
def getText : XmlNode → Option String
  | .element _ _ (.text s :: _) => some s
  | _ => none

/-- `XMLElement::FindAttribute(name)` followed by `Value()`. -/
def findAttr : XmlNode → String → Option String
  | .element _ attrs _, a => (attrs.find? (fun p => p.1 = a)).map (·.2)
  | .text _, _ => none

def attrsOf : XmlNode → List (String × String)
  | .element _ attrs _ => attrs
  | .text _ => []

/-- Follow a chain of `FirstChildElement` lookups. -/
def descend (n : XmlNode) : List String → Option XmlNode
  | [] => some n
  | t :: ts =>
    match n.firstChildElement t with
    | some c => c.descend ts
    | none => none

end XmlNode

/-- The key and styleUrl texts of each `Pair` child of a style map, in
document order. -/
def pairMappings (styleMap : XmlNode) : List (Option String × Option String) :=
  (styleMap.childElementsWithTag "Pair").map
    (fun p => ((p.firstChildElement "key").bind XmlNode.getText,
               (p.firstChildElement "styleUrl").bind XmlNode.getText))

/-- A C++ failure: either a thrown `std::invalid_argument`-style exception
carrying a message, or undefined behaviour (a null `const char*` used where
a string is required), which no handler can give a defined meaning. -/
inductive CppError where
  | thrown (msg : String)
  | nullDeref (what : String)
deriving DecidableEq, Repr

/-! ## Track Parser -/

structure Date where
  year : Nat
  month : Nat
  day : Nat
deriving DecidableEq, Repr

/-- Modelled: `std::get_time` with pattern `"%Y-%m-%dT%H:%M:%SZ"`,
restricted to the canonical fixed-width form the format names. -/
def parseTimestamp (s : String) : Option Date :=
  match s.data with
  | [y1, y2, y3, y4, c1, m1, m2, c2, d1, d2, t, h1, h2, c3, n1, n2, c4, s1, s2, z] =>
    if y1.isDigit && y2.isDigit && y3.isDigit && y4.isDigit && c1 = '-' &&
        m1.isDigit && m2.isDigit && c2 = '-' && d1.isDigit && d2.isDigit &&
        t = 'T' && h1.isDigit && h2.isDigit && c3 = ':' &&
        n1.isDigit && n2.isDigit && c4 = ':' && s1.isDigit && s2.isDigit &&
        z = 'Z' then
      some ⟨digitsToNat [y1, y2, y3, y4], digitsToNat [m1, m2], digitsToNat [d1, d2]⟩
    else none
  | _ => none

/-- `ParseTime`: metadata → time → text → timestamp.  A null `GetText()`
flows into an `std::istringstream` constructor. -/
def parseTime (root : XmlNode) : Except CppError Date :=
  match root.firstChildElement "metadata" with
  | none => .error (.thrown "Missing metadata element")
  | some md =>
    match md.firstChildElement "time" with
    | none => .error (.thrown "Missing metadata time element")
    | some timeEl =>
      match timeEl.getText with
      | none => .error (.nullDeref "istringstream constructed from null GetText()")
      | some s =>
        match parseTimestamp s with
        | none => .error (.thrown s)
        | some d => .ok d

/-- `ParseName`: the track's name child.  The code returns `GetText()`
directly as a `std::string`; when the element is empty `GetText()` is null
and the conversion is undefined behaviour. -/
def parseName (track : XmlNode) : Except CppError String :=
  match track.firstChildElement "name" with
  | none => .error (.thrown "Missing name element")
  | some nameEl =>
    match nameEl.getText with
    | none => .error (.nullDeref "std::string constructed from null GetText()")
    | some s => .ok s

structure Coordinate where
  lat : Dec
  lon : Dec
  alt : Dec
deriving DecidableEq, Repr

def badLexicalCastMsg : String :=
  "bad lexical cast: source type value could not be interpreted as target"

def lexicalCastDouble (s : String) : Except CppError Dec :=
  match parseDecimal s with
  | some d => .ok d
  | none => .error (.thrown badLexicalCastMsg)

/-- One `trkpt`: lat/lon attributes, `ele` child, three lexical casts in
the order the braced initializer evaluates them (lat, lon, alt). -/
def parsePoint (point : XmlNode) : Except CppError Coordinate :=
  match point.findAttr "lat", point.findAttr "lon" with
  | some latS, some lonS =>
    match point.firstChildElement "ele" with
    | none => .error (.thrown "Missing ele element")
    | some eleEl =>
      match eleEl.getText with
      | none => .error (.nullDeref "lexical_cast source is null GetText()")
      | some eleS =>
        match lexicalCastDouble latS with
        | .error e => .error e
        | .ok lat =>
          match lexicalCastDouble lonS with
          | .error e => .error e
          | .ok lon =>
            match lexicalCastDouble eleS with
            | .error e => .error e
            | .ok alt => .ok ⟨lat, lon, alt⟩
  | _, _ => .error (.thrown "Missing lat/lon attributes")

/-- The `trkpt` loop of `ParseCoordinates`: points are parsed in document
order and the first bad point aborts the whole parse. -/
def parsePoints : List XmlNode → Except CppError (List Coordinate)
  | [] => .ok []
  | p :: rest =>
    match parsePoint p with
    | .error e => .error e
    | .ok c =>
      match parsePoints rest with
      | .error e => .error e
      | .ok cs => .ok (c :: cs)

/-- `ParseCoordinates`: the track's `trkseg` child, then the point loop. -/
def parseCoordinates (track : XmlNode) : Except CppError (List Coordinate) :=
  match track.firstChildElement "trkseg" with
  | none => .error (.thrown "Missing trkseg element")
  | some seg => parsePoints (seg.childElementsWithTag "trkpt")

structure Track where
  name : String
  date : Date
  coordinates : List Coordinate
deriving DecidableEq, Repr

/-- The parse stage of `ConvertFile`: root `gpx` element, time, first
`trk` child, name, coordinates, in the order the code runs them. -/
def parseTrack (topLevel : List XmlNode) : Except CppError Track :=
  match topLevel.find? (XmlNode.isElementWithTag "gpx") with
  | none => .error (.thrown "Missing root element")
  | some root =>
    match parseTime root with
    | .error e => .error e
    | .ok date =>
      match root.firstChildElement "trk" with
      | none => .error (.thrown "Missing trk element")
      | some track =>
        match parseName track with
        | .error e => .error e
        | .ok name =>
          match parseCoordinates track with
          | .error e => .error e
          | .ok coords => .ok ⟨name, date, coords⟩

/-- `ConvertFile`'s catch block: a thrown per-file error is rethrown as
`"<what> while parsing: \"<input file>\""`; undefined behaviour is not an
exception and is not caught. -/
def convertError (e : CppError) (inputFile : String) : CppError :=
  match e with
  | .thrown m => .thrown (m ++ " while parsing: \"" ++ inputFile ++ "\"")
  | .nullDeref w => .nullDeref w

/-- The message the worker's handler prints for a failed file, when the
failure is a defined (thrown) one. -/
def reportedParseError (topLevel : List XmlNode) (inputFile : String) : Option String :=
  match parseTrack topLevel with
  | .ok _ => none
  | .error e =>
    match convertError e inputFile with
    | .thrown m => some m
    | .nullDeref _ => none

/-! ## Filename Resolver -/

/-- The characters matched by the regex `[<>:"\/\|\?\*]`.  Inside the
character class the backslashes only escape the character that follows
them (`/`, `|`, `?`, `*`), so the class holds these eight characters and
not the backslash itself. -/
def illegalChars : List Char := ['<', '>', ':', '"', '/', '|', '?', '*']

/-- The whitespace class of `std::isspace` in the default locale, which
`boost::algorithm::trim_copy` uses. -/
def isSpaceChar (c : Char) : Bool :=
  c = ' ' || c = '\t' || c = '\n' || c = Char.ofNat 11 || c = Char.ofNat 12 || c = '\r'

def trimCopy (s : String) : String :=
  ⟨((s.data.dropWhile isSpaceChar).reverse.dropWhile isSpaceChar).reverse⟩

/-- `NormalizeFilename`: replace every regex-matched character with `_`,
then trim surrounding whitespace. -/
def normalizeFilename (filename : String) : String :=
  trimCopy ⟨filename.data.map (fun c => if illegalChars.contains c then '_' else c)⟩

/-- `std::put_time` with `"%Y-%m-%d"`: year as written, month and day
zero-padded to two digits. -/
def pad2 (n : Nat) : String :=
  if n < 10 then "0" ++ natToDecimal n else natToDecimal n

def formatDate (d : Date) : String :=
  natToDecimal d.year ++ "-" ++ pad2 d.month ++ "-" ++ pad2 d.day

def basenameOf (name : String) (date : Date) : String :=
  formatDate date ++ " " ++ name

def filenameOf (name : String) (date : Date) : String :=
  basenameOf name date ++ ".kml"

def outputPathOf (name : String) (date : Date) (outputDir : String) : String :=
  outputDir ++ "/" ++ normalizeFilename (filenameOf name date)

/-! ## Document Serializer -/

/-- One iteration of the coordinate loop: `lon << "," << lat << "," << alt
<< " "`, each value under `std::fixed` with `precision(7)`. -/
def coordinateEntryBody (c : Coordinate) : String :=
  fixed7 c.lon ++ "," ++ fixed7 c.lat ++ "," ++ fixed7 c.alt

def coordinateEntry (c : Coordinate) : String :=
  coordinateEntryBody c ++ " "

/-- The accumulated `coordinate_string` stream after the loop. -/
def coordinateString : List Coordinate → String
  | [] => ""
  | c :: rest => coordinateEntry c ++ coordinateString rest

/-- The XML tree `WriteFile` builds (the leading XML declaration node is
left implicit). -/
def kmlDocument (name : String) (date : Date) (coords : List Coordinate) : XmlNode :=
  .element "kml"
    [("xmlns", "http://www.opengis.net/kml/2.2"),
     ("xmlns:gx", "http://www.google.com/kml/ext/2.2"),
     ("xmlns:kml", "http://www.opengis.net/kml/2.2"),
     ("xmlns:atom", "http://www.w3.org/2005/Atom")]
    [.element "Document" []
      [.element "name" [] [.text (filenameOf name date)],
       .element "Style" [("id", "style1")]
         [.element "LineStyle" []
           [.element "color" [] [.text "ff0000ff"],
            .element "width" [] [.text "4"]]],
       .element "StyleMap" [("id", "stylemap_id00")]
         [.element "Pair" []
           [.element "key" [] [.text "normal"],
            .element "styleUrl" [] [.text "style1"]],
          .element "Pair" []
           [.element "key" [] [.text "highlight"],
            .element "styleUrl" [] [.text "style1"]]],
       .element "Placemark" []
         [.element "name" [] [.text (basenameOf name date)],
          .element "styleUrl" [] [.text "#stylemap_id00"],
          .element "MultiGeometry" []
            [.element "LineString" []
              [.element "coordinates" [] [.text (coordinateString coords)]]]]]]

/-! ## WriteFile: collision check, log, create, serialize, save -/

inductive Event where
  | writingLog (path : String)
  | openForWrite (path : String)
  | serialize (path : String)
  | saveAttempt (path : String)
deriving DecidableEq, Repr

structure WriteResult where
  events : List Event
  outcome : Except CppError String
  fs : List String
  built : Option XmlNode

def fsHas (fs : List String) (p : String) : Bool := fs.contains p

/-- `WriteFile`, with the file system as the list of existing paths and
the success of `SaveFile` as an external input.  The existence check
precedes the log line, the `fopen` (which creates or truncates the file),
the document construction and the save. -/
def writeFile (name : String) (date : Date) (coords : List Coordinate)
    (outputDir : String) (fs : List String) (saveOk : Bool) : WriteResult :=
  let path := outputPathOf name date outputDir
  if fsHas fs path then
    { events := [],
      outcome := .error (.thrown ("Output file already exists, skipping \"" ++ path ++ "\"")),
      fs := fs,
      built := none }
  else if saveOk then
    { events := [.writingLog path, .openForWrite path, .serialize path, .saveAttempt path],
      outcome := .ok path,
      fs := fs ++ [path],
      built := some (kmlDocument name date coords) }
  else
    { events := [.writingLog path, .openForWrite path, .serialize path, .saveAttempt path],
      outcome := .error (.thrown ("Failed writing to: \"" ++ path ++ "\"")),
      fs := fs ++ [path],
      built := some (kmlDocument name date coords) }

/-! ## Command-line front end (`main` and the pre-flight checks of `Main`) -/

structure Flags where
  help : Bool
  inputDir : Option String
  outputDir : Option String
deriving DecidableEq, Repr

/-- `variables_map::empty()`: no option was supplied at all. -/
def Flags.isEmptyMap (f : Flags) : Bool :=
  !f.help && f.inputDir.isNone && f.outputDir.isNone

structure FsView where
  isDirectory : String → Bool
  candidates : String → List Bool

structure RunOutcome where
  exitCode : Nat
  tasksScheduled : Nat
deriving DecidableEq, Repr

/-- `main` composed with the pre-flight part of `Main`: help and empty
invocations print usage and exit 0; a missing `input_dir` exits 1; `Main`
checks that the (defaulted) output directory is a directory and then
iterates the input directory, whose iterator construction fails unless it
is a directory; any of these failures exits 1 before any task is posted.
On success every candidate file becomes a task. -/
def runProgram (flags : Flags) (fs : FsView) : RunOutcome :=
  if flags.help || flags.isEmptyMap then ⟨0, 0⟩
  else
    match flags.inputDir with
    | none => ⟨1, 0⟩
    | some input =>
      let outputDir := flags.outputDir.getD input
      if !fs.isDirectory outputDir then ⟨1, 0⟩
      else if !fs.isDirectory input then ⟨1, 0⟩
      else ⟨0, (fs.candidates input).length⟩

/-! ## Scheduler: producer, worker pool, backpressure, shutdown

The producer/worker structure of `Main` as a labelled transition system.
A candidate file is abstracted to the `Bool` saying whether its conversion
succeeds.  The producer's admission control is split into its two phases:
observing `num_in_progress < 2 * threads.size()` under the mutex
(`admitCheck`) and the increment-and-post (`dispatchTask`), between which
workers may still decrement the counter.  `io_service::stop()` prevents
queued handlers from ever starting; handlers already running finish, and
`join_all` returns once no handler is running. -/

structure SchedState where
  pending : List Bool
  queued : List Bool
  running : List Bool
  succeeded : Nat
  failed : Nat
  inFlight : Nat
  armed : Bool
  armedVal : Bool
  stopped : Bool
  reported : Option (Nat × Nat)
deriving DecidableEq, Repr

def schedInit (files : List Bool) : SchedState :=
  { pending := files, queued := [], running := [], succeeded := 0, failed := 0,
    inFlight := 0, armed := false, armedVal := false, stopped := false,
    reported := none }

inductive SchedStep (W : Nat) : SchedState → SchedState → Prop where
  | admitCheck (s : SchedState) (v : Bool) (rest : List Bool) :
      s.pending = v :: rest → s.armed = false → s.stopped = false →
      s.inFlight < 2 * W →
      SchedStep W s { s with pending := rest, armed := true, armedVal := v }
  | dispatchTask (s : SchedState) :
      s.armed = true →
      SchedStep W s { s with armed := false, inFlight := s.inFlight + 1,
                             queued := s.queued ++ [s.armedVal] }
  | startTask (s : SchedState) (v : Bool) (q : List Bool) :
      s.stopped = false → s.queued = v :: q → s.running.length < W →
      SchedStep W s { s with queued := q, running := s.running ++ [v] }
  | finishTask (s : SchedState) (l1 l2 : List Bool) (v : Bool) :
      s.running = l1 ++ v :: l2 →
      SchedStep W s { s with running := l1 ++ l2,
                             inFlight := s.inFlight - 1,
                             succeeded := if v then s.succeeded + 1 else s.succeeded,
                             failed := if v then s.failed else s.failed + 1 }
  | stopService (s : SchedState) :
      s.pending = [] → s.armed = false → s.stopped = false →
      SchedStep W s { s with stopped := true }
  | reportCounts (s : SchedState) :
      s.stopped = true → s.running = [] → s.reported = none →
      SchedStep W s { s with reported := some (s.succeeded, s.failed) }

inductive SchedReach (W : Nat) : SchedState → SchedState → Prop where
  | refl (s : SchedState) : SchedReach W s s
  | tail {s t u : SchedState} :
      SchedReach W s t → SchedStep W t u → SchedReach W s u

/-! ## Concrete documents used as inputs -/

/-- A track whose `name` element is present but empty: `GetText()` on it is
null. -/
def emptyNameDoc : List XmlNode :=
  [.element "gpx" []
    [.element "metadata" [] [.element "time" [] [.text "2023-06-01T10:00:00Z"]],
     .element "trk" []
       [.element "name" [] [],
        .element "trkseg" [] []]]]

/-- A track point whose `lat` attribute is not a number. -/
def badLatPoint : XmlNode :=
  .element "trkpt" [("lat", "abc"), ("lon", "8.0")]
    [.element "ele" [] [.text "400.0"]]

def badLatTrk : XmlNode :=
  .element "trk" []
    [.element "name" [] [.text "Morning Run"],
     .element "trkseg" [] [badLatPoint]]

def badLatDoc : List XmlNode :=
  [.element "gpx" []
    [.element "metadata" [] [.element "time" [] [.text "2023-06-01T10:00:00Z"]],
     badLatTrk]]

def containsSub (hay needle : String) : Bool :=
  (List.range (hay.data.length + 1)).any
    (fun i => needle.data.isPrefixOf (hay.data.drop i))

def fsEmptyView : FsView := ⟨fun _ => false, fun _ => []⟩

/-- A `trkpt` that passes all the presence checks: `lat` and `lon`
attributes and an `ele` child with text. -/
def pointShapeOk (p : XmlNode) : Bool :=
  (p.findAttr "lat").isSome && (p.findAttr "lon").isSome &&
    (match p.firstChildElement "ele" with
     | some e => e.getText.isSome
     | none => false)

/-- The three raw value strings of a point, in evaluation order. -/
def pointValues (p : XmlNode) : List String :=
  (p.findAttr "lat").toList ++ (p.findAttr "lon").toList ++
    ((p.firstChildElement "ele").bind XmlNode.getText).toList

def pointUnparsable (p : XmlNode) : Bool :=
  (pointValues p).any (fun s => (parseDecimal s).isNone)

/-- The backpressure invariant: the in-flight count is bounded by twice the
worker count, and while the producer sits between its admission check and
the increment the count is strictly below the bound. -/
def schedInv (W : Nat) (s : SchedState) : Prop :=
  s.inFlight ≤ 2 * W ∧ (s.armed = true → s.inFlight < 2 * W)

/-- Decompose a character list at every space. -/
def splitOnSpace : List Char → List (List Char)
  | [] => [[]]
  | c :: cs =>
    let r := splitOnSpace cs
    if c = ' ' then [] :: r
    else (c :: r.headD []) :: r.tail

/-- The concrete scenario of the spec: two points `(47.0, 8.0, 400.0)` and
`(47.0001, 8.0001, 405.0)`, as they arrive from the parser. -/
def scenarioSeg : XmlNode :=
  .element "trkseg" []
    [.element "trkpt" [("lat", "47.0"), ("lon", "8.0")]
      [.element "ele" [] [.text "400.0"]],
     .element "trkpt" [("lat", "47.0001"), ("lon", "8.0001")]
      [.element "ele" [] [.text "405.0"]]]

def scenarioTrk : XmlNode :=
  .element "trk" []
    [.element "name" [] [.text "Morning Run"], scenarioSeg]

def scenarioCoords : List Coordinate :=
  [{ lat := ⟨470, 1⟩, lon := ⟨80, 1⟩, alt := ⟨4000, 1⟩ },
   { lat := ⟨470001, 4⟩, lon := ⟨80001, 4⟩, alt := ⟨4050, 1⟩ }]

/-! ## Claims C4, C6, C5, C10, C9 -/

/-- C4: the spec claims the sanitized basename contains none of the nine
characters `< > : " / \ | ? *`.  The regex character class
`[<>:"\/\|\?\*]` never matches a backslash (each backslash in it escapes
the character after it), so a backslash in the track name survives
`NormalizeFilename` unchanged: the code contradicts the illegal-character
list its own comment cites. -/
theorem C4_backslash_survives_sanitization :
    normalizeFilename "2023-06-01 a\\b.kml" = "2023-06-01 a\\b.kml" ∧
    '\\' ∈ (normalizeFilename "2023-06-01 a\\b.kml").data := by
  constructor
  · rfl
  · decide

/-- The eight characters the regex does match are replaced by `_`, and
surrounding whitespace is trimmed afterwards. -/
theorem normalizeFilename_replaces_matched_chars :
    normalizeFilename " <a>:\"/|?* " = "_a_______" := by rfl

/-- C6: on a document whose first `trk` has an empty `name` element the
parser does not succeed with an empty name: `GetText()` is null and the
code passes it to the `std::string` constructor, which is undefined
behaviour, not a defined empty-string parse. -/
theorem C6_empty_name_is_null_deref :
    parseTrack emptyNameDoc =
      .error (.nullDeref "std::string constructed from null GetText()") := by rfl

/-- C5: when the resolved output path already exists, `WriteFile` throws
before logging, opening, serializing or writing anything: the outcome is a
failure naming the existing path, no document is built, no event happens,
and the file system is unchanged. -/
theorem C5_collision_never_overwrites (name : String) (date : Date)
    (coords : List Coordinate) (outputDir : String) (fs : List String)
    (saveOk : Bool)
    (h : fsHas fs (outputPathOf name date outputDir) = true) :
    (writeFile name date coords outputDir fs saveOk).outcome =
      .error (.thrown ("Output file already exists, skipping \"" ++
        outputPathOf name date outputDir ++ "\"")) ∧
    (writeFile name date coords outputDir fs saveOk).built = none ∧
    (writeFile name date coords outputDir fs saveOk).events = [] ∧
    (writeFile name date coords outputDir fs saveOk).fs = fs := by
  simp [writeFile, h]

theorem C5_witness :
    (writeFile "Morning Run" ⟨2023, 6, 1⟩ [] "out"
        ["out/2023-06-01 Morning Run.kml"] true).outcome =
      .error (.thrown ("Output file already exists, skipping \"" ++
        outputPathOf "Morning Run" ⟨2023, 6, 1⟩ "out" ++ "\"")) ∧
    (writeFile "Morning Run" ⟨2023, 6, 1⟩ [] "out"
        ["out/2023-06-01 Morning Run.kml"] true).built = none ∧
    (writeFile "Morning Run" ⟨2023, 6, 1⟩ [] "out"
        ["out/2023-06-01 Morning Run.kml"] true).events = [] ∧
    (writeFile "Morning Run" ⟨2023, 6, 1⟩ [] "out"
        ["out/2023-06-01 Morning Run.kml"] true).fs =
      ["out/2023-06-01 Morning Run.kml"] :=
  C5_collision_never_overwrites "Morning Run" ⟨2023, 6, 1⟩ [] "out"
    ["out/2023-06-01 Morning Run.kml"] true (by rfl)

/-- C10: past the collision check, the `Writing: <path>` log line is the
first event, before the file is created (`fopen`) and before the save; in
particular when `SaveFile` fails the outcome is a write failure but the
Writing line was already emitted, so its presence does not imply a
successful write. -/
theorem C10_writing_log_precedes_write (name : String) (date : Date)
    (coords : List Coordinate) (outputDir : String) (fs : List String)
    (saveOk : Bool)
    (h : fsHas fs (outputPathOf name date outputDir) = false) :
    (writeFile name date coords outputDir fs saveOk).events =
      [.writingLog (outputPathOf name date outputDir),
       .openForWrite (outputPathOf name date outputDir),
       .serialize (outputPathOf name date outputDir),
       .saveAttempt (outputPathOf name date outputDir)] ∧
    (saveOk = false →
      (writeFile name date coords outputDir fs saveOk).outcome =
        .error (.thrown ("Failed writing to: \"" ++
          outputPathOf name date outputDir ++ "\"")) ∧
      Event.writingLog (outputPathOf name date outputDir) ∈
        (writeFile name date coords outputDir fs saveOk).events) := by
  cases saveOk <;> simp [writeFile, h]

theorem C10_witness :
    (writeFile "Morning Run" ⟨2023, 6, 1⟩ [] "out" [] false).events =
      [.writingLog (outputPathOf "Morning Run" ⟨2023, 6, 1⟩ "out"),
       .openForWrite (outputPathOf "Morning Run" ⟨2023, 6, 1⟩ "out"),
       .serialize (outputPathOf "Morning Run" ⟨2023, 6, 1⟩ "out"),
       .saveAttempt (outputPathOf "Morning Run" ⟨2023, 6, 1⟩ "out")] ∧
    (false = false →
      (writeFile "Morning Run" ⟨2023, 6, 1⟩ [] "out" [] false).outcome =
        .error (.thrown ("Failed writing to: \"" ++
          outputPathOf "Morning Run" ⟨2023, 6, 1⟩ "out" ++ "\"")) ∧
      Event.writingLog (outputPathOf "Morning Run" ⟨2023, 6, 1⟩ "out") ∈
        (writeFile "Morning Run" ⟨2023, 6, 1⟩ [] "out" [] false).events) :=
  C10_writing_log_precedes_write "Morning Run" ⟨2023, 6, 1⟩ [] "out" [] false
    (by rfl)

/-- C9 counterexample: an invocation with no options at all does not supply
`--input_dir`, yet the program prints usage and exits 0 (the
`flags.empty()` help path), not 1 as the claim states. -/
theorem C9_counterexample_empty_invocation :
    (⟨false, none, none⟩ : Flags).inputDir = none ∧
    runProgram ⟨false, none, none⟩ fsEmptyView = ⟨0, 0⟩ ∧
    (runProgram ⟨false, none, none⟩ fsEmptyView).exitCode ≠ 1 := by
  refine ⟨rfl, rfl, ?_⟩
  decide

/-- C9 amended: for every invocation that does not take the help path
(neither `--help` nor an empty option set), a missing `--input_dir` exits
1 with no task scheduled, and a supplied `--input_dir` that is not a
directory exits 1 with no task scheduled. -/
theorem C9_amended_fatal_preflight (flags : Flags) (fs : FsView)
    (hHelp : flags.help = false) (hNonEmpty : flags.isEmptyMap = false) :
    (flags.inputDir = none → runProgram flags fs = ⟨1, 0⟩) ∧
    (∀ d, flags.inputDir = some d → fs.isDirectory d = false →
      runProgram flags fs = ⟨1, 0⟩) := by
  constructor
  · intro h
    simp [runProgram, hHelp, hNonEmpty, h]
  · intro d hd hdir
    cases hout : flags.outputDir with
    | none => simp [runProgram, hHelp, hNonEmpty, hd, hout, hdir]
    | some o =>
      cases ho : fs.isDirectory o with
      | false => simp [runProgram, hHelp, hNonEmpty, hd, hout, ho]
      | true => simp [runProgram, hHelp, hNonEmpty, hd, hout, ho, hdir]

theorem C9_witness :
    runProgram ⟨false, some "gone", none⟩ fsEmptyView = ⟨1, 0⟩ :=
  (C9_amended_fatal_preflight ⟨false, some "gone", none⟩ fsEmptyView rfl rfl).2
    "gone" rfl rfl

/-! ## Claim C8 -/

/-- C8: the serialized document has the fixed structure: a `kml` root with
the four namespace attributes, exactly one `Style` (id `style1`) whose
`LineStyle` carries color `ff0000ff` and width `4`, exactly one `StyleMap`
(id `stylemap_id00`) whose two `Pair`s map the `normal` and `highlight`
keys to `style1`, and exactly one `Placemark` whose name is the
pre-sanitization basename (date, space, track name) and whose `styleUrl`
is `#stylemap_id00`. -/
theorem C8_fixed_document_structure (name : String) (date : Date)
    (coords : List Coordinate) :
    (kmlDocument name date coords).isElementWithTag "kml" = true ∧
    (kmlDocument name date coords).attrsOf =
      [("xmlns", "http://www.opengis.net/kml/2.2"),
       ("xmlns:gx", "http://www.google.com/kml/ext/2.2"),
       ("xmlns:kml", "http://www.opengis.net/kml/2.2"),
       ("xmlns:atom", "http://www.w3.org/2005/Atom")] ∧
    ((kmlDocument name date coords).descend ["Document"]).map
        (fun d => ((d.childElementsWithTag "Style").length,
                   (d.childElementsWithTag "StyleMap").length,
                   (d.childElementsWithTag "Placemark").length)) =
      some (1, 1, 1) ∧
    ((kmlDocument name date coords).descend ["Document", "Style"]).bind
        (fun s => s.findAttr "id") = some "style1" ∧
    ((kmlDocument name date coords).descend
        ["Document", "Style", "LineStyle", "color"]).bind XmlNode.getText =
      some "ff0000ff" ∧
    ((kmlDocument name date coords).descend
        ["Document", "Style", "LineStyle", "width"]).bind XmlNode.getText =
      some "4" ∧
    ((kmlDocument name date coords).descend ["Document", "StyleMap"]).bind
        (fun s => s.findAttr "id") = some "stylemap_id00" ∧
    ((kmlDocument name date coords).descend ["Document", "StyleMap"]).map
        pairMappings =
      some [(some "normal", some "style1"), (some "highlight", some "style1")] ∧
    ((kmlDocument name date coords).descend
        ["Document", "Placemark", "name"]).bind XmlNode.getText =
      some (basenameOf name date) ∧
    ((kmlDocument name date coords).descend
        ["Document", "Placemark", "styleUrl"]).bind XmlNode.getText =
      some "#stylemap_id00" := by
  refine ⟨rfl, rfl, rfl, rfl, rfl, rfl, rfl, rfl, rfl, rfl⟩

/-! ## Claim C7 -/

theorem parsePoint_bad_value (p : XmlNode) (h : pointShapeOk p = true)
    (hu : pointUnparsable p = true) :
    parsePoint p = .error (.thrown badLexicalCastMsg) := by
  rcases hlat : p.findAttr "lat" with _ | latS <;>
    rcases hlon : p.findAttr "lon" with _ | lonS <;>
      simp [pointShapeOk, hlat, hlon] at h
  rcases hele : p.firstChildElement "ele" with _ | eleEl <;> simp [hele] at h
  rcases htxt : eleEl.getText with _ | eleS <;> simp [htxt] at h
  have hvals : pointValues p = [latS, lonS, eleS] := by
    simp [pointValues, hlat, hlon, hele, htxt]
  have hu' : parseDecimal latS = none ∨ parseDecimal lonS = none ∨
      parseDecimal eleS = none := by
    simpa [pointUnparsable, hvals, Option.isNone_iff_eq_none] using hu
  rcases hl : parseDecimal latS with _ | lv <;>
    rcases hn : parseDecimal lonS with _ | nv <;>
      rcases he : parseDecimal eleS with _ | ev <;>
        simp_all [parsePoint, hlat, hlon, hele, htxt, lexicalCastDouble]

theorem parsePoint_good_shape (p : XmlNode) (h : pointShapeOk p = true)
    (hu : pointUnparsable p = false) :
    ∃ c, parsePoint p = .ok c := by
  rcases hlat : p.findAttr "lat" with _ | latS <;>
    rcases hlon : p.findAttr "lon" with _ | lonS <;>
      simp [pointShapeOk, hlat, hlon] at h
  rcases hele : p.firstChildElement "ele" with _ | eleEl <;> simp [hele] at h
  rcases htxt : eleEl.getText with _ | eleS <;> simp [htxt] at h
  have hvals : pointValues p = [latS, lonS, eleS] := by
    simp [pointValues, hlat, hlon, hele, htxt]
  have hu' : (parseDecimal latS).isSome = true ∧
      (parseDecimal lonS).isSome = true ∧ (parseDecimal eleS).isSome = true := by
    simpa [pointUnparsable, hvals] using hu
  rcases hl : parseDecimal latS with _ | lv <;>
    rcases hn : parseDecimal lonS with _ | nv <;>
      rcases he : parseDecimal eleS with _ | ev <;>
        simp_all [parsePoint, hlat, hlon, hele, htxt, lexicalCastDouble]

/-- C7 counterexample: a file whose `lat` is the unparsable text `abc`
fails, but the reported error is boost's fixed `bad lexical cast` message
wrapped with the file path, and it does not contain the offending raw
text. -/
theorem C7_counterexample_error_lacks_raw_text :
    reportedParseError badLatDoc "in/run.gpx" =
      some (badLexicalCastMsg ++ " while parsing: \"in/run.gpx\"") ∧
    containsSub (badLexicalCastMsg ++ " while parsing: \"in/run.gpx\"")
      "abc" = false := by
  refine ⟨rfl, ?_⟩
  decide

/-- C7 amended: a track whose points all pass the presence checks but
contain some value that does not parse as a decimal number fails the
conversion, with the fixed generic lexical-cast message (which does not
name the offending raw text). -/
theorem C7_amended_unparsable_number_fails (track seg : XmlNode)
    (hseg : track.firstChildElement "trkseg" = some seg)
    (hShape : ∀ p ∈ seg.childElementsWithTag "trkpt", pointShapeOk p = true)
    (hBad : ∃ p ∈ seg.childElementsWithTag "trkpt", pointUnparsable p = true) :
    parseCoordinates track = .error (.thrown badLexicalCastMsg) := by
  have key : ∀ pts : List XmlNode,
      (∀ p ∈ pts, pointShapeOk p = true) →
      (∃ p ∈ pts, pointUnparsable p = true) →
      parsePoints pts = .error (.thrown badLexicalCastMsg) := by
    intro pts
    induction pts with
    | nil => intro _ hB; simp at hB
    | cons p rest ih =>
      intro hS hB
      have hp := hS p (List.mem_cons_self p rest)
      by_cases hu : pointUnparsable p = true
      · have hbad := parsePoint_bad_value p hp hu
        simp [parsePoints, hbad]
      · obtain ⟨c, hc⟩ := parsePoint_good_shape p hp (by simpa using hu)
        have hB' : ∃ q ∈ rest, pointUnparsable q = true := by
          obtain ⟨q, hq, hqu⟩ := hB
          rcases List.mem_cons.mp hq with hq1 | hq2
          · exact absurd (hq1 ▸ hqu) hu
          · exact ⟨q, hq2, hqu⟩
        have hrest := ih (fun q hq => hS q (List.mem_cons_of_mem p hq)) hB'
        simp [parsePoints, hc, hrest]
  unfold parseCoordinates
  rw [hseg]
  exact key _ hShape hBad

theorem C7_witness :
    parseCoordinates badLatTrk = .error (.thrown badLexicalCastMsg) :=
  C7_amended_unparsable_number_fails badLatTrk
    (.element "trkseg" [] [badLatPoint]) rfl
    (by
      intro p hp
      cases hp with
      | head => rfl
      | tail _ h => cases h)
    ⟨badLatPoint, List.mem_cons_self badLatPoint [], rfl⟩

/-! ## Claims C3 and C2 -/

theorem schedStep_inv {W : Nat} {s t : SchedState} (h : SchedStep W s t)
    (hs : schedInv W s) : schedInv W t := by
  cases h with
  | admitCheck v rest h1 h2 h3 h4 => exact ⟨hs.1, fun _ => h4⟩
  | dispatchTask h1 => exact ⟨hs.2 h1, fun hh => nomatch hh⟩
  | startTask v q h1 h2 h3 => exact hs
  | finishTask l1 l2 v h1 =>
      exact ⟨le_trans (Nat.sub_le _ _) hs.1,
             fun ha => lt_of_le_of_lt (Nat.sub_le _ _) (hs.2 ha)⟩
  | stopService h1 h2 h3 => exact hs
  | reportCounts h1 h2 h3 => exact hs

theorem schedReach_inv {W : Nat} {s t : SchedState} (h : SchedReach W s t)
    (hs : schedInv W s) : schedInv W t := by
  induction h with
  | refl => exact hs
  | tail hr hstep ih => exact schedStep_inv hstep ih

/-- C3: in every state reachable during a run, the number of in-flight
tasks (admitted past the backpressure check, not yet finished) never
exceeds twice the worker count: the producer only increments after
observing the count strictly below `2 * W`, and only workers decrement. -/
theorem C3_in_flight_bounded (W : Nat) (files : List Bool) (s : SchedState)
    (h : SchedReach W (schedInit files) s) : s.inFlight ≤ 2 * W :=
  (schedReach_inv h ⟨Nat.zero_le _, fun hh => nomatch hh⟩).1

theorem C3_witness :
    ({ pending := [true], queued := [], running := [], succeeded := 0,
       failed := 0, inFlight := 0, armed := true, armedVal := true,
       stopped := false, reported := none } : SchedState).inFlight ≤ 2 * 1 :=
  C3_in_flight_bounded 1 [true, true] _
    (SchedReach.tail (SchedReach.refl _)
      (SchedStep.admitCheck _ true [true] rfl rfl rfl (by decide)))

/-- C2: the claim that the scheduler waits for every dispatched task before
reporting fails on the code: `io_service::stop()` is called right after the
enumeration loop while the `work` guard is still alive, so handlers still
sitting in the queue are never run.  With one worker and two valid files
there is an execution in which both tasks are dispatched, neither is ever
started, and the final summary reports 0 succeeded and 0 failed instead of
2 succeeded. -/
theorem C2_stop_abandons_queued_tasks :
    ∃ s : SchedState, SchedReach 1 (schedInit [true, true]) s ∧
      s.reported = some (0, 0) ∧ s.queued = [true, true] := by
  refine ⟨{ pending := [], queued := [true, true], running := [],
            succeeded := 0, failed := 0, inFlight := 2, armed := false,
            armedVal := true, stopped := true, reported := some (0, 0) },
          ?_, rfl, rfl⟩
  have r1 : SchedReach 1 (schedInit [true, true])
      { pending := [true], queued := [], running := [], succeeded := 0,
        failed := 0, inFlight := 0, armed := true, armedVal := true,
        stopped := false, reported := none } :=
    SchedReach.tail (SchedReach.refl _)
      (SchedStep.admitCheck _ true [true] rfl rfl rfl (by decide))
  have r2 : SchedReach 1 (schedInit [true, true])
      { pending := [true], queued := [true], running := [], succeeded := 0,
        failed := 0, inFlight := 1, armed := false, armedVal := true,
        stopped := false, reported := none } :=
    SchedReach.tail r1 (SchedStep.dispatchTask _ rfl)
  have r3 : SchedReach 1 (schedInit [true, true])
      { pending := [], queued := [true], running := [], succeeded := 0,
        failed := 0, inFlight := 1, armed := true, armedVal := true,
        stopped := false, reported := none } :=
    SchedReach.tail r2 (SchedStep.admitCheck _ true [] rfl rfl rfl (by decide))
  have r4 : SchedReach 1 (schedInit [true, true])
      { pending := [], queued := [true, true], running := [], succeeded := 0,
        failed := 0, inFlight := 2, armed := false, armedVal := true,
        stopped := false, reported := none } :=
    SchedReach.tail r3 (SchedStep.dispatchTask _ rfl)
  have r5 : SchedReach 1 (schedInit [true, true])
      { pending := [], queued := [true, true], running := [], succeeded := 0,
        failed := 0, inFlight := 2, armed := false, armedVal := true,
        stopped := true, reported := none } :=
    SchedReach.tail r4 (SchedStep.stopService _ rfl rfl rfl)
  exact SchedReach.tail r5 (SchedStep.reportCounts _ rfl rfl rfl)

/-! ## Claim C1 -/

theorem string_mk_data (l : List Char) : (⟨l⟩ : String).data = l := rfl

theorem splitOnSpace_append (xs ys : List Char) (h : ∀ c ∈ xs, c ≠ ' ') :
    splitOnSpace (xs ++ ' ' :: ys) = xs :: splitOnSpace ys := by
  induction xs with
  | nil => simp [splitOnSpace]
  | cons x xs ih =>
    have hx : x ≠ ' ' := h x (List.mem_cons_self x xs)
    have ih' := ih (fun c hc => h c (List.mem_cons_of_mem x hc))
    simp [splitOnSpace, hx, ih']

theorem digitChar_lt10_not_space : ∀ d < 10, Nat.digitChar d ≠ ' ' := by decide

theorem digitChar_lt10_isDigit : ∀ d < 10, (Nat.digitChar d).isDigit = true := by
  decide

theorem natToDecimalAux_chars {fuel n : Nat} {c : Char}
    (hc : c ∈ natToDecimalAux fuel n) : ∃ d, d < 10 ∧ c = Nat.digitChar d := by
  induction fuel generalizing n with
  | zero => simp [natToDecimalAux] at hc
  | succ f ih =>
    cases n with
    | zero => simp [natToDecimalAux] at hc
    | succ m =>
      simp only [natToDecimalAux, List.mem_append, List.mem_singleton] at hc
      rcases hc with h1 | h2
      · exact ih h1
      · exact ⟨(m + 1) % 10, Nat.mod_lt _ (by decide), h2⟩

theorem natToDecimal_chars {n : Nat} {c : Char} (hc : c ∈ (natToDecimal n).data) :
    ∃ d, d < 10 ∧ c = Nat.digitChar d := by
  unfold natToDecimal at hc
  split at hc
  · have h0 : ("0" : String).data = ['0'] := rfl
    rw [h0] at hc
    refine ⟨0, by decide, ?_⟩
    simpa using hc
  · exact natToDecimalAux_chars (by simpa [string_mk_data] using hc)

theorem fracDigits7_digits (m : Nat) :
    ∀ ch ∈ fracDigits7 m, ch.isDigit = true := by
  intro ch hch
  simp only [fracDigits7, List.mem_map, List.mem_range] at hch
  obtain ⟨i, _, hi⟩ := hch
  exact hi ▸ digitChar_lt10_isDigit _ (Nat.mod_lt _ (by decide))

theorem fracDigits7_no_space (m : Nat) : ∀ ch ∈ fracDigits7 m, ch ≠ ' ' := by
  intro ch hch
  simp only [fracDigits7, List.mem_map, List.mem_range] at hch
  obtain ⟨i, _, hi⟩ := hch
  exact hi ▸ digitChar_lt10_not_space _ (Nat.mod_lt _ (by decide))

theorem fixed7_no_space (d : Dec) : ∀ c ∈ (fixed7 d).data, c ≠ ' ' := by
  intro c hc
  unfold fixed7 at hc
  simp only [String.data_append, List.mem_append, string_mk_data] at hc
  rcases hc with ((h | h) | h) | h
  · by_cases hneg : d.num < 0
    · rw [if_pos hneg] at h
      have hdash : ("-" : String).data = ['-'] := rfl
      rw [hdash] at h
      simp at h
      subst h
      decide
    · rw [if_neg hneg] at h
      have hempty : ("" : String).data = [] := rfl
      rw [hempty] at h
      simp at h
  · obtain ⟨d', hd', hcd⟩ := natToDecimal_chars h
    exact hcd ▸ digitChar_lt10_not_space _ hd'
  · simp at h
    subst h
    decide
  · exact fracDigits7_no_space _ c h

theorem coordinateEntryBody_no_space (co : Coordinate) :
    ∀ c ∈ (coordinateEntryBody co).data, c ≠ ' ' := by
  intro c hc
  unfold coordinateEntryBody at hc
  simp only [String.data_append, List.mem_append] at hc
  rcases hc with (((h | h) | h) | h) | h
  · exact fixed7_no_space _ c h
  · simp at h; subst h; decide
  · exact fixed7_no_space _ c h
  · simp at h; subst h; decide
  · exact fixed7_no_space _ c h

theorem coordinateString_data_cons (co : Coordinate) (rest : List Coordinate) :
    (coordinateString (co :: rest)).data =
      (coordinateEntryBody co).data ++ ' ' :: (coordinateString rest).data := by
  have hsp : (" " : String).data = [' '] := rfl
  simp [coordinateString, coordinateEntry, String.data_append, hsp]

theorem splitOnSpace_coordinateString (cs : List Coordinate) :
    splitOnSpace (coordinateString cs).data =
      cs.map (fun co => (coordinateEntryBody co).data) ++ [[]] := by
  induction cs with
  | nil => rfl
  | cons co rest ih =>
    rw [coordinateString_data_cons,
        splitOnSpace_append _ _ (coordinateEntryBody_no_space co), ih]
    simp

/-- The scaling step of `fixed7` is the real rounding operation: for a
nonnegative value it equals `round` of the exact value scaled by
`10 ^ 7`. -/
theorem fixed7Scaled_eq_round (d : Dec) (h : 0 ≤ d.num) :
    (fixed7Scaled d : ℤ) = round (d.toRat * 10 ^ 7) := by
  have hval : d.toRat * 10 ^ 7 + 1 / 2 =
      ((d.num.natAbs * 10 ^ 7 * 2 + 10 ^ d.shift : ℕ) : ℚ) /
        ((2 * 10 ^ d.shift : ℕ) : ℚ) := by
    obtain ⟨m, hm⟩ := Int.eq_ofNat_of_zero_le h
    rw [Dec.toRat, hm, Int.natAbs_ofNat]
    have hden : ((10 : ℚ) ^ d.shift) ≠ 0 := by positivity
    push_cast
    field_simp
    ring
  rw [round_eq, hval, Rat.floor_natCast_div_natCast]
  rfl

/-- C1: the coordinates string decomposes at its spaces into exactly one
entry per coordinate, in input order, with one trailing empty chunk (the
trailing space after the final entry); each entry is
longitude,latitude,altitude with the longitude first; every rendered value
ends in a dot followed by exactly seven decimal digits; the parsed point
list is in one-to-one order-preserving correspondence with the `trkpt`
elements; the string is what the serializer embeds in the `coordinates`
element; and the spec's concrete two-point scenario renders to the exact
expected string. -/
theorem C1_coordinate_string_rendering :
    (∀ cs : List Coordinate,
      splitOnSpace (coordinateString cs).data =
        cs.map (fun co => (coordinateEntryBody co).data) ++ [[]]) ∧
    (∀ co : Coordinate,
      coordinateEntryBody co =
        fixed7 co.lon ++ "," ++ fixed7 co.lat ++ "," ++ fixed7 co.alt) ∧
    (∀ d : Dec, ∃ intPart : String,
      fixed7 d = intPart ++ "." ++
        (⟨fracDigits7 (fixed7Scaled d % 10 ^ 7)⟩ : String) ∧
      (fracDigits7 (fixed7Scaled d % 10 ^ 7)).length = 7 ∧
      ∀ ch ∈ fracDigits7 (fixed7Scaled d % 10 ^ 7), ch.isDigit = true) ∧
    (∀ (pts : List XmlNode) (cs : List Coordinate), parsePoints pts = .ok cs →
      List.Forall₂ (fun p c => parsePoint p = .ok c) pts cs) ∧
    (∀ (name : String) (date : Date) (cs : List Coordinate),
      ((kmlDocument name date cs).descend
          ["Document", "Placemark", "MultiGeometry", "LineString",
           "coordinates"]).bind XmlNode.getText = some (coordinateString cs)) ∧
    parseCoordinates scenarioTrk = .ok scenarioCoords ∧
    coordinateString scenarioCoords =
      "8.0000000,47.0000000,400.0000000 8.0001000,47.0001000,405.0000000 " := by
  refine ⟨splitOnSpace_coordinateString, fun _ => rfl, ?_, ?_, fun _ _ _ => rfl,
    rfl, rfl⟩
  · intro d
    refine ⟨(if d.num < 0 then "-" else "") ++
      natToDecimal (fixed7Scaled d / 10 ^ 7), rfl, by simp [fracDigits7],
      fracDigits7_digits _⟩
  · intro pts
    induction pts with
    | nil =>
      intro cs h
      simp only [parsePoints] at h
      cases h
      exact List.Forall₂.nil
    | cons p rest ih =>
      intro cs h
      simp only [parsePoints] at h
      rcases hp : parsePoint p with e | c0 <;> rw [hp] at h <;> simp at h
      rcases hr : parsePoints rest with e | cs0 <;> rw [hr] at h <;> simp at h
      exact h ▸ List.Forall₂.cons hp (ih cs0 hr)

theorem C1_witness :
    List.Forall₂ (fun p c => parsePoint p = .ok c)
      (scenarioSeg.childElementsWithTag "trkpt") scenarioCoords :=
  C1_coordinate_string_rendering.2.2.2.1
    (scenarioSeg.childElementsWithTag "trkpt") scenarioCoords (by rfl)

end GpxToKml
